import Mathlib

/-!
# Verification of `volclean.py` (tclh123/awsvolclean)

A shallow embedding of the decision logic of the EBS volume cleaner:
the tag filter, the candidate (eligibility) decision, the metric-window
computation, the retry policies, the removal log, and the orchestrator's
account-by-region error handling.

Conventions of the embedding:
* Timestamps are integers counting seconds; one day is 86400 seconds and
  `timedelta(days = d)` is `d * 86400`.
* A CloudWatch datapoint's `Minimum` value (a Python float) is a rational;
  the code only compares it against the literal 299.
* Python exceptions are the `PyError` type; a fallible computation returns
  `Except PyError _`.
* `boto3` volumes expose `tags` as `None` when the volume carries no tags,
  which the embedding renders as `Option (List Tag)`; iterating over `None`
  raises `TypeError`.
* Python's `re` module is external; regex matching is abstracted as a
  parameter `regexSearch : String → String → Bool` taking the pattern and
  the subject string.
-/

set_option autoImplicit false

namespace VolClean

/-- A Python exception, as far as the cleaner distinguishes them. -/
inductive PyError where
  /-- `ValueError` (also argparse's unpacking error). -/
  | valueError (msg : String)
  /-- `argparse.ArgumentTypeError`, raised by `check_positive`. -/
  | argumentTypeError (msg : String)
  /-- `TypeError`, e.g. iterating over `None`. -/
  | typeError
  /-- `botocore.exceptions.ClientError` with `e.response['Error']['Code']`. -/
  | clientError (code : String)
  deriving DecidableEq, Repr

/-- A key/value tag attached to a volume. -/
structure Tag where
  key : String
  value : String
  deriving DecidableEq, Repr

/-- An EBS volume as the cleaner reads it: `tags` is `none` when the volume
carries no tags at all (boto3 returns `None` then). -/
structure Volume where
  volume_id : String
  volume_type : String
  size : Nat
  create_time : Int
  tags : Option (List Tag)
  deriving DecidableEq, Repr

/-- The CLI arguments the decision logic consumes. `tags = []` models the
argparse default `None` (Python treats both as falsy via `if not self.args.tags`). -/
structure Args where
  age : Int
  tags : List String
  ignore_metrics : Bool
  deriving DecidableEq, Repr

/-- A CloudWatch datapoint of the `VolumeIdleTime` metric: the `Minimum`
statistic over one period. -/
structure Datapoint where
  timestamp : Int
  minimum : ℚ
  deriving DecidableEq, Repr

/-- `check_positive` (volclean.py:98-102): argparse type for `--age`;
raises `ArgumentTypeError` on a non-positive value. -/
def check_positive (value : Int) : Except PyError Int :=
  if value ≤ 0 then
    .error (.argumentTypeError (toString value ++ " is an invalid positive int value"))
  else
    .ok value

/-- Startup argument parsing as far as the claims need it
(volclean.py:40-49): `--age` is validated through `check_positive`;
`--tags` is stored as raw strings with no validation at parse time. -/
def startupParse (age : Int) (tags : List String) (ignore_metrics : Bool) :
    Except PyError Args :=
  match check_positive age with
  | .error e => .error e
  | .ok a => .ok { age := a, tags := tags, ignore_metrics := ignore_metrics }

/-- Split a character list at the first `':'`: the part before it and
everything after it (later colons included). -/
def splitFirstColon : List Char → Option (List Char × List Char)
  | [] => none
  | c :: cs =>
    if c = ':' then some ([], cs)
    else
      match splitFirstColon cs with
      | none => none
      | some (k, v) => some (c :: k, v)

/-- Python's `tag.split(':', 1)` followed by the two-variable unpacking:
`none` when the string has no colon (the unpacking raises `ValueError`),
otherwise the part before the first colon and everything after it. -/
def splitTagRule (s : String) : Option (String × String) :=
  match splitFirstColon s.toList with
  | none => none
  | some (k, v) => some (⟨k⟩, ⟨v⟩)

/-- `next((item['Value'] for item in tags if item['Key'] == search_key), None)`. -/
def lookupTag (tags : List Tag) (key : String) : Option String :=
  (tags.find? (fun item => item.key == key)).map (·.value)

/-- The rule loop of `tag_filter` (volclean.py:192-214): for each rule,
split on the first colon (raising on a missing colon or an empty part),
look the key up in the volume's tags (`volume.tags` being `None` raises
`TypeError`), and require the regex to match; `false` short-circuits. -/
def tag_filter_loop (regexSearch : String → String → Bool) (volume : Volume) :
    List String → Except PyError Bool
  | [] => .ok true
  | rule :: rest =>
    match splitTagRule rule with
    | none => .error (.valueError "not enough values to unpack (expected 2, got 1)")
    | some (search_key, search_value) =>
      if search_key = "" ∨ search_value = "" then
        .error (.valueError ("Malformed tag search: " ++ rule))
      else
        match volume.tags with
        | none => .error .typeError
        | some tags =>
          match lookupTag tags search_key with
          | none => .ok false
          | some tag_value =>
            if regexSearch search_value tag_value then
              tag_filter_loop regexSearch volume rest
            else
              .ok false

/-- `VolumeCleaner.tag_filter` (volclean.py:188-214): vacuously true when no
tag rules were configured, otherwise every rule must match. -/
def tag_filter (regexSearch : String → String → Bool) (argsTags : List String)
    (volume : Volume) : Except PyError Bool :=
  if argsTags = [] then .ok true
  else tag_filter_loop regexSearch volume argsTags

/-- The datapoint loop of `candidate` (volclean.py:245-250): `true` iff some
datapoint's `Minimum` is below 299 (the code then returns `None`). -/
def hasLowDatapoint : List Datapoint → Bool
  | [] => false
  | m :: rest => if m.minimum < 299 then true else hasLowDatapoint rest

/-- `VolumeCleaner.candidate` (volclean.py:216-255). The CloudWatch series
for the volume is passed in as `datapoints` (the result of `get_metrics`),
and `now` is the `datetime.utcnow()` instant of the empty-series branch.
Returns `some volume` for a deletion candidate, `none` otherwise. -/
def candidate (regexSearch : String → String → Bool) (args : Args) (now : Int)
    (datapoints : List Datapoint) (volume : Volume) :
    Except PyError (Option Volume) :=
  match tag_filter regexSearch args.tags volume with
  | .error e => .error e
  | .ok false => .ok none
  | .ok true =>
    if args.ignore_metrics then .ok (some volume)
    else if datapoints = [] then
      let expire := volume.create_time + args.age * 86400
      if now ≥ expire then .ok (some volume) else .ok none
    else if hasLowDatapoint datapoints then .ok none
    else .ok (some volume)

/-- The CloudWatch `get_metric_statistics` request assembled by
`VolumeCleaner.get_metrics` (volclean.py:168-186). -/
structure MetricsRequest where
  metricNamespace : String
  metricName : String
  dimensionName : String
  dimensionValue : String
  period : Nat
  startTime : Int
  endTime : Int
  statistics : List String
  unit : String
  deriving DecidableEq, Repr

/-- `VolumeCleaner.get_metrics` (volclean.py:168-186): the request built for
a volume at instant `now` (`datetime.now()`) with `--age` days of lookback:
`end_time = now + timedelta(days=1)`,
`start_time = end_time - timedelta(days=self.args.age)`. -/
def get_metrics_request (now : Int) (age : Int) (volume : Volume) : MetricsRequest :=
  let end_time := now + 1 * 86400
  let start_time := end_time - age * 86400
  { metricNamespace := "AWS/EBS", metricName := "VolumeIdleTime",
    dimensionName := "VolumeId", dimensionValue := volume.volume_id,
    period := 3600, startTime := start_time, endTime := end_time,
    statistics := ["Minimum"], unit := "Seconds" }

/-- The parameters of one `@retry(...)` decoration from the `retrying`
library. -/
structure RetryPolicy where
  stop_max_attempt_number : Nat
  wait_exponential_multiplier : Nat
  wait_exponential_max : Nat
  deriving DecidableEq, Repr

/-- The `@retry` parameters on `VolumeCleaner.run` (volclean.py:135-136),
the method containing the filtering phase. -/
def run_retry_policy : RetryPolicy :=
  { stop_max_attempt_number := 30, wait_exponential_multiplier := 3000,
    wait_exponential_max := 120000 }

/-- The `@retry` parameters on `VolumeCleaner.remove_volume`
(volclean.py:257-258), the deletion call. -/
def remove_volume_retry_policy : RetryPolicy :=
  { stop_max_attempt_number := 100, wait_exponential_multiplier := 1000,
    wait_exponential_max := 30000 }

/-- Modelled from the spec: the exponential backoff wait (milliseconds)
computed from a policy by the external `retrying` library (not part of this
repository): attempt `n`'s wait is `min(baseMultiplier * 2^(n-1), capMs)`
in the spec's numbering. -/
def backoffWait (p : RetryPolicy) (n : Nat) : Nat :=
  min (p.wait_exponential_multiplier * 2 ^ (n - 1)) p.wait_exponential_max

/-- `retry_on_request_limit_exceeded` (volclean.py:112-117): the retry
predicate, true only for a `ClientError` whose code is
`RequestLimitExceeded`. -/
def retry_on_request_limit_exceeded : PyError → Bool
  | .clientError code => code == "RequestLimitExceeded"
  | _ => false

/-- Modelled from the spec: the retry loop of the external `retrying`
library (`@retry(..., retry_on_exception=...)`, not part of this
repository). `call i` is the outcome of the `i`-th attempt (1-based);
starting with attempt `i`, at most `remaining` further attempts are made;
a success is returned at once; an error for which `shouldRetry` is false
is returned at once; a retryable error is retried while attempts remain. -/
def retryCall {α : Type} (shouldRetry : PyError → Bool)
    (call : Nat → Except PyError α) :
    (remaining : Nat) → (i : Nat) → Except PyError α
  | 0, _ => .error (.valueError "RetryError")
  | n + 1, i =>
    match call i with
    | .ok v => .ok v
    | .error e =>
      if shouldRetry e then
        match n with
        | 0 => .error e
        | m + 1 => retryCall shouldRetry call (m + 1) (i + 1)
      else .error e

/-- One entry of `VolumeCleaner.removal_log` (volclean.py:270-274);
`create_time` holds `str(volume.create_time)`. -/
structure RemovalRecord where
  volume_id : String
  volume_type : String
  size : Nat
  create_time : String
  removal_time : String
  deriving DecidableEq, Repr

/-- `VolumeCleaner.remove_volume` (volclean.py:259-276), the body after the
thread-safe session re-fetch: build the removal record, issue
`volume.delete()` (its outcome supplied as `deleteOutcome`), and append the
record to the log only when the delete returned; an exception from the
delete leaves the log unchanged and propagates. -/
def remove_volume (deleteOutcome : Except PyError Unit) (removal_time : String)
    (volume : Volume) (removal_log : List RemovalRecord) :
    List RemovalRecord × Option PyError :=
  let removal_log_record : RemovalRecord :=
    { volume_id := volume.volume_id, volume_type := volume.volume_type,
      size := volume.size, create_time := toString volume.create_time,
      removal_time := removal_time }
  match deleteOutcome with
  | .ok _ => (removal_log ++ [removal_log_record], none)
  | .error e => (removal_log, some e)

/-- The deletion phase of `VolumeCleaner.run` (volclean.py:148-153):
`p.map(self.remove_volume, candidates)`, threading the removal log.
Each worker appends to the shared log only on its own success, so the
phase's effect on the log is the sequence of per-volume `remove_volume`
effects; a failed delete contributes nothing to the log. -/
def runDeletionPhase (deleteOutcome : Volume → Except PyError Unit)
    (removal_time : Volume → String) :
    List Volume → List RemovalRecord → List RemovalRecord
  | [], removal_log => removal_log
  | v :: rest, removal_log =>
    runDeletionPhase deleteOutcome removal_time rest
      (remove_volume (deleteOutcome v) (removal_time v) v removal_log).1

/-- The number of records in a removal log naming a given volume id. -/
def countRecords (volume_id : String) (removal_log : List RemovalRecord) : Nat :=
  (removal_log.filter (fun rec => rec.volume_id = volume_id)).length

/-- The filtering phase of `VolumeCleaner.run` (volclean.py:140):
`list(filter(None, p.map(self.candidate, volumes)))`, with `metricsOf`
supplying each volume's CloudWatch series; an exception raised by
`candidate` propagates out of the phase. -/
def runFilterPhase (regexSearch : String → String → Bool) (args : Args)
    (now : Int) (metricsOf : Volume → List Datapoint) :
    List Volume → Except PyError (List Volume)
  | [] => .ok []
  | v :: rest =>
    match candidate regexSearch args now (metricsOf v) v with
    | .error e => .error e
    | .ok o =>
      match runFilterPhase regexSearch args now metricsOf rest with
      | .error e => .error e
      | .ok cs =>
        match o with
        | some c => .ok (c :: cs)
        | none => .ok cs

/-- The per-region loop of `main` (volclean.py:74-85): run each region and
record its removal log under the region's name; a `ClientError` with code
`UnauthorizedOperation` is caught, logged and the region skipped; any other
exception escapes the region loop. Returns the region entries accumulated
up to that point (they stay in `report_data`) and the escaping exception,
if any. -/
def regionLoop (runRegion : String → Except PyError (List RemovalRecord)) :
    List String → List (String × List RemovalRecord) × Option PyError
  | [] => ([], none)
  | r :: rest =>
    match runRegion r with
    | .ok removal_log =>
      let res := regionLoop runRegion rest
      ((r, removal_log) :: res.1, res.2)
    | .error e =>
      match e with
      | .clientError code =>
        if code = "UnauthorizedOperation" then regionLoop runRegion rest
        else ([], some e)
      | _ => ([], some e)

/-- The per-account loop of `main` (volclean.py:71-90): each account's
region entries are put into the report; an exception escaping the region
loop is re-examined: a `ClientError` with code `AccessDenied` is caught,
logged and the account's remaining regions skipped (its partial region
entries stay in the report); any other exception aborts the whole loop. -/
def accountLoop (runRegion : String → String → Except PyError (List RemovalRecord))
    (regions : List String) :
    List String → Except PyError (List (String × List (String × List RemovalRecord)))
  | [] => .ok []
  | a :: rest =>
    let res := regionLoop (runRegion a) regions
    match res.2 with
    | none =>
      match accountLoop runRegion regions rest with
      | .error e => .error e
      | .ok report => .ok ((a, res.1) :: report)
    | some e =>
      match e with
      | .clientError code =>
        if code = "AccessDenied" then
          match accountLoop runRegion regions rest with
          | .error e2 => .error e2
          | .ok report => .ok ((a, res.1) :: report)
        else .error e
      | _ => .error e

/-! ## Concrete fixtures used to instantiate the theorems -/

/-- A rule string the tag filter rejects when its turn comes: no colon, or
an empty key or regex part (volclean.py:193-195). -/
def malformedRule (rule : String) : Bool :=
  match splitTagRule rule with
  | none => true
  | some (k, v) => k == "" || v == ""

/-- Arguments with no tag rules, metrics on, default age 14. -/
def argsPlain : Args := { age := 14, tags := [], ignore_metrics := false }

/-- Arguments with one well-formed tag rule. -/
def argsOneRule : Args :=
  { age := 14, tags := ["Name:^integration-test"], ignore_metrics := false }

/-- Arguments with one malformed tag rule (empty regex part). -/
def argsBadRule : Args := { age := 14, tags := ["Name:"], ignore_metrics := false }

/-- A concrete volume with a `Name` tag. -/
def volA : Volume :=
  { volume_id := "vol-0a", volume_type := "gp2", size := 8, create_time := 0,
    tags := some [{ key := "Name", value := "integration-test-1" }] }

/-- A concrete volume whose `Name` tag does not match the fixture rule. -/
def volB : Volume :=
  { volume_id := "vol-0b", volume_type := "gp2", size := 100, create_time := 0,
    tags := some [{ key := "Name", value := "prod-db" }] }

/-- A concrete volume carrying no tags at all (boto3's `tags = None`). -/
def volNoTags : Volume :=
  { volume_id := "vol-0c", volume_type := "gp2", size := 8, create_time := 0,
    tags := none }

/-- An attempt trace that is rate-limited on attempts 1 and 2 and succeeds
on attempt 3. -/
def callAfterTwo : Nat → Except PyError Nat := fun i =>
  if i ≤ 2 then .error (.clientError "RequestLimitExceeded") else .ok 42

/-- A region runner: account `acct1` is denied in region `r2` only,
account `acct2` is denied everywhere at account scope, everything else
succeeds with an empty removal log. -/
def runRegion0 : String → String → Except PyError (List RemovalRecord)
  | "acct1", "r2" => .error (.clientError "UnauthorizedOperation")
  | "acct2", _ => .error (.clientError "AccessDenied")
  | _, _ => .ok []

/-- A region runner that always fails with an unrecognised client error. -/
def runRegionFatal : String → String → Except PyError (List RemovalRecord) :=
  fun _ _ => .error (.clientError "Throttling")

end VolClean

namespace VolClean

example :
    candidate (fun _ _ => true) { age := 14, tags := [], ignore_metrics := false } 0
      [⟨0, 400⟩, ⟨1, 298⟩, ⟨2, 500⟩]
      { volume_id := "v", volume_type := "gp2", size := 8, create_time := 0,
        tags := some [] } = .ok none := by
  rfl

example :
    candidate (fun _ _ => true) { age := 14, tags := [], ignore_metrics := false } 0
      [⟨0, 400⟩, ⟨1, 299⟩, ⟨2, 500⟩]
      { volume_id := "v", volume_type := "gp2", size := 8, create_time := 0,
        tags := some [] } =
      .ok (some { volume_id := "v", volume_type := "gp2", size := 8,
                  create_time := 0, tags := some [] }) := by
  rfl

example :
    candidate (fun _ _ => true) { age := 14, tags := [], ignore_metrics := false }
      (14 * 86400) []
      { volume_id := "v", volume_type := "gp2", size := 8, create_time := 0,
        tags := some [] } =
      .ok (some { volume_id := "v", volume_type := "gp2", size := 8,
                  create_time := 0, tags := some [] }) := by
  rfl

example :
    tag_filter (fun _ _ => true) ["Name:"]
      { volume_id := "v", volume_type := "gp2", size := 8, create_time := 0,
        tags := some [] } = .error (.valueError "Malformed tag search: Name:") := by
  rfl

example :
    tag_filter (fun _ _ => true) ["Name:^x"]
      { volume_id := "v", volume_type := "gp2", size := 8, create_time := 0,
        tags := none } = .error .typeError := by
  rfl

/-! ## Helper lemmas -/

theorem hasLowDatapoint_eq_true (l : List Datapoint) :
    hasLowDatapoint l = true ↔ ∃ m ∈ l, m.minimum < 299 := by
  induction l with
  | nil => simp [hasLowDatapoint]
  | cons m rest ih =>
    by_cases h : m.minimum < 299
    · simp [hasLowDatapoint, h]
    · simp [hasLowDatapoint, h, ih]

theorem hasLowDatapoint_eq_false (l : List Datapoint) :
    hasLowDatapoint l = false ↔ ∀ m ∈ l, (299 : ℚ) ≤ m.minimum := by
  induction l with
  | nil => simp [hasLowDatapoint]
  | cons m rest ih =>
    by_cases h : m.minimum < 299
    · simp only [hasLowDatapoint, if_pos h]
      constructor
      · intro hf
        exact absurd hf (by simp)
      · intro hall
        exact absurd h (not_lt.mpr (hall m (List.mem_cons_self m rest)))
    · simp only [hasLowDatapoint, if_neg h]
      rw [ih]
      constructor
      · intro hall m' hm'
        rcases List.mem_cons.mp hm' with rfl | hm''
        · exact not_lt.mp h
        · exact hall m' hm''
      · intro hall m' hm'
        exact hall m' (List.mem_cons_of_mem m hm')

/-! ## Claims -/

/-- C1: for every volume that passed the tag filter, with ignore-metrics off
and a non-empty fetched metric series, `candidate` returns the volume iff
every datapoint's `Minimum` is at least 299, and a single datapoint with
`Minimum` 298 anywhere in the series forces the non-candidate verdict. -/
theorem C1_nonempty_series_threshold
    (regexSearch : String → String → Bool) (args : Args) (now : Int)
    (datapoints : List Datapoint) (volume : Volume)
    (htag : tag_filter regexSearch args.tags volume = .ok true)
    (him : args.ignore_metrics = false)
    (hne : datapoints ≠ []) :
    (candidate regexSearch args now datapoints volume = .ok (some volume) ↔
      ∀ m ∈ datapoints, (299 : ℚ) ≤ m.minimum) ∧
    ((∃ m ∈ datapoints, m.minimum = (298 : ℚ)) →
      candidate regexSearch args now datapoints volume = .ok none) := by
  unfold candidate
  rw [htag, him]
  simp only [Bool.false_eq_true, if_false, if_neg hne]
  constructor
  · rw [← hasLowDatapoint_eq_false]
    cases h : hasLowDatapoint datapoints <;> simp [h]
  · rintro ⟨m, hm, hval⟩
    have hlow : hasLowDatapoint datapoints = true :=
      (hasLowDatapoint_eq_true datapoints).mpr ⟨m, hm, by rw [hval]; norm_num⟩
    simp [hlow]

/-- Witness for C1 at a concrete series `[400, 299]`. -/
theorem C1_witness :
    (candidate (fun _ _ => true) argsPlain 0 [⟨0, 400⟩, ⟨1, 299⟩] volA =
        .ok (some volA) ↔
      ∀ m ∈ [(⟨0, 400⟩ : Datapoint), ⟨1, 299⟩], (299 : ℚ) ≤ m.minimum) ∧
    ((∃ m ∈ [(⟨0, 400⟩ : Datapoint), ⟨1, 299⟩], m.minimum = (298 : ℚ)) →
      candidate (fun _ _ => true) argsPlain 0 [⟨0, 400⟩, ⟨1, 299⟩] volA = .ok none) :=
  C1_nonempty_series_threshold (fun _ _ => true) argsPlain 0
    [⟨0, 400⟩, ⟨1, 299⟩] volA rfl rfl (by decide)

/-- C2: for every volume that passed the tag filter, with ignore-metrics off
and an empty fetched metric series, `candidate` returns the volume iff
`now ≥ create_time + age` days; the exact-equality boundary is a candidate. -/
theorem C2_empty_series_age_threshold
    (regexSearch : String → String → Bool) (args : Args) (now : Int)
    (volume : Volume)
    (htag : tag_filter regexSearch args.tags volume = .ok true)
    (him : args.ignore_metrics = false) :
    (candidate regexSearch args now [] volume = .ok (some volume) ↔
      now ≥ volume.create_time + args.age * 86400) ∧
    (now = volume.create_time + args.age * 86400 →
      candidate regexSearch args now [] volume = .ok (some volume)) := by
  unfold candidate
  rw [htag, him]
  constructor
  · by_cases h : now ≥ volume.create_time + args.age * 86400 <;> simp [h]
  · intro h
    simp [h.ge]

/-- Witness for C2 at the exact boundary `now = create_time + 14 days`. -/
theorem C2_witness :
    (candidate (fun _ _ => true) argsPlain (14 * 86400) [] volA = .ok (some volA) ↔
      (14 * 86400 : Int) ≥ volA.create_time + argsPlain.age * 86400) ∧
    ((14 * 86400 : Int) = volA.create_time + argsPlain.age * 86400 →
      candidate (fun _ _ => true) argsPlain (14 * 86400) [] volA = .ok (some volA)) :=
  C2_empty_series_age_threshold (fun _ _ => true) argsPlain (14 * 86400) volA rfl rfl

/-- C10: with at least one tag rule configured, a volume whose tags
attribute is absent (`None`) makes the eligibility filter raise an
exception rather than return a non-candidate verdict; when the first rule
is well-formed the exception is the `TypeError` from iterating `None`. -/
theorem C10_null_tags_raises
    (regexSearch : String → String → Bool) (args : Args) (now : Int)
    (datapoints : List Datapoint) (volume : Volume)
    (rule : String) (rest : List String)
    (hrules : args.tags = rule :: rest)
    (htags : volume.tags = none) :
    ∃ e, candidate regexSearch args now datapoints volume = .error e ∧
      ((∃ k v, splitTagRule rule = some (k, v) ∧ k ≠ "" ∧ v ≠ "") →
        e = .typeError) := by
  unfold candidate tag_filter
  rw [hrules]
  simp only [reduceCtorEq, if_false]
  unfold tag_filter_loop
  cases hsplit : splitTagRule rule with
  | none =>
    refine ⟨.valueError "not enough values to unpack (expected 2, got 1)", by simp, ?_⟩
    rintro ⟨k, v, hkv, -, -⟩
    exact absurd hkv (by simp)
  | some kv =>
    obtain ⟨k, v⟩ := kv
    by_cases hempty : k = "" ∨ v = ""
    · refine ⟨.valueError ("Malformed tag search: " ++ rule), by simp [hempty], ?_⟩
      rintro ⟨k', v', hkv, hk', hv'⟩
      injection hkv with hpair
      injection hpair with hk hv
      rcases hempty with h | h
      · exact absurd (hk ▸ h) hk'
      · exact absurd (hv ▸ h) hv'
    · exact ⟨.typeError, by simp [hempty, htags], fun _ => rfl⟩

/-- Witness for C10: one well-formed rule, a volume with absent tags. -/
theorem C10_witness :
    ∃ e, candidate (fun _ _ => true) argsOneRule 0 [] volNoTags = .error e ∧
      ((∃ k v, splitTagRule "Name:^integration-test" = some (k, v) ∧
          k ≠ "" ∧ v ≠ "") → e = .typeError) :=
  C10_null_tags_raises (fun _ _ => true) argsOneRule 0 [] volNoTags
    "Name:^integration-test" [] rfl rfl

/-- C8: the metrics query window ends at the current time plus one day (not
at the current time), starts `age` days before that end, and requests the
per-hour (period 3600 s) `Minimum` statistic of `VolumeIdleTime`. -/
theorem C8_metrics_window (now age : Int) (volume : Volume) :
    (get_metrics_request now age volume).endTime = now + 86400 ∧
    (get_metrics_request now age volume).endTime ≠ now ∧
    (get_metrics_request now age volume).startTime =
      (get_metrics_request now age volume).endTime - age * 86400 ∧
    (get_metrics_request now age volume).period = 3600 ∧
    (get_metrics_request now age volume).statistics = ["Minimum"] ∧
    (get_metrics_request now age volume).metricName = "VolumeIdleTime" ∧
    (get_metrics_request now age volume).metricNamespace = "AWS/EBS" := by
  refine ⟨?_, ?_, rfl, rfl, rfl, rfl, rfl⟩
  · show now + 1 * 86400 = now + 86400
    ring
  · show now + 1 * 86400 ≠ now
    omega

/-- C4 counterexample: the claim's comparison of backoff ceilings fails on
the code: the deletion policy's ceiling (30000 ms) is strictly SHORTER
than the filtering policy's (120000 ms), not longer. -/
theorem C4_counterexample :
    ¬ (remove_volume_retry_policy.wait_exponential_max >
        run_retry_policy.wait_exponential_max ∧
       remove_volume_retry_policy.stop_max_attempt_number >
        run_retry_policy.stop_max_attempt_number) ∧
    remove_volume_retry_policy.wait_exponential_max = 30000 ∧
    run_retry_policy.wait_exponential_max = 120000 := by
  decide

/-- C4 (amended): the deletion retry policy has a strictly larger maximum
attempt count (100 vs 30) but a strictly SHORTER backoff ceiling (30000 ms
vs 120000 ms) and a smaller multiplier than the filtering policy; in both
policies attempt `n`'s wait is `min(multiplier * 2^(n-1), cap)` (the
spec-modelled backoff of the external `retrying` library), reaching the
ceiling at attempt 6 resp. 7. -/
theorem C4_amended_policies :
    remove_volume_retry_policy.stop_max_attempt_number >
      run_retry_policy.stop_max_attempt_number ∧
    remove_volume_retry_policy.wait_exponential_max <
      run_retry_policy.wait_exponential_max ∧
    remove_volume_retry_policy.wait_exponential_multiplier <
      run_retry_policy.wait_exponential_multiplier ∧
    (∀ n, backoffWait remove_volume_retry_policy n =
      min (1000 * 2 ^ (n - 1)) 30000) ∧
    (∀ n, backoffWait run_retry_policy n = min (3000 * 2 ^ (n - 1)) 120000) ∧
    backoffWait remove_volume_retry_policy 6 = 30000 ∧
    backoffWait run_retry_policy 7 = 120000 :=
  ⟨by decide, by decide, by decide, fun _ => rfl, fun _ => rfl, by decide, by decide⟩

/-- C5 counterexample: a malformed tag rule (`"Name:"`, empty regex part)
passes startup argument parsing untouched, and with zero volumes the run
never raises at all; the `ValueError` only surfaces once the filtering
phase reaches a volume — so it is not a startup error raised before cloud
calls. -/
theorem C5_counterexample :
    startupParse 14 ["Name:"] false = .ok argsBadRule ∧
    runFilterPhase (fun _ _ => true) argsBadRule 0 (fun _ => []) [] = .ok [] ∧
    runFilterPhase (fun _ _ => true) argsBadRule 0 (fun _ => []) [volA] =
      .error (.valueError "Malformed tag search: Name:") :=
  ⟨rfl, rfl, rfl⟩

/-- C5 (amended): a non-positive age threshold is fatal at startup
(`check_positive` raises during argument parsing, before any cloud call),
while a malformed tag rule is stored unvalidated at startup and instead
raises a fatal `ValueError` from the filtering phase at the first volume
examined — an exception that aborts the run, not a per-volume skip. -/
theorem C5_amended_config_errors :
    (∀ (age : Int) (tags : List String) (im : Bool), age ≤ 0 →
      ∃ msg, startupParse age tags im = .error (.argumentTypeError msg)) ∧
    (∀ (age : Int) (tags : List String) (im : Bool), 0 < age →
      startupParse age tags im = .ok { age := age, tags := tags, ignore_metrics := im }) ∧
    (∀ (regexSearch : String → String → Bool) (args : Args) (now : Int)
        (metricsOf : Volume → List Datapoint) (rule : String) (rest : List String)
        (v : Volume) (vs : List Volume),
      args.tags = rule :: rest → malformedRule rule = true →
      ∃ msg, runFilterPhase regexSearch args now metricsOf (v :: vs) =
        .error (.valueError msg)) := by
  refine ⟨?_, ?_, ?_⟩
  · intro age tags im hage
    exact ⟨toString age ++ " is an invalid positive int value",
      by simp [startupParse, check_positive, hage]⟩
  · intro age tags im hage
    simp [startupParse, check_positive, not_le.mpr hage]
  · intro regexSearch args now metricsOf rule rest v vs hrules hbad
    have hfilter : ∃ msg, tag_filter regexSearch args.tags v =
        .error (.valueError msg) := by
      unfold tag_filter
      rw [hrules]
      simp only [reduceCtorEq, if_false]
      unfold tag_filter_loop
      unfold malformedRule at hbad
      cases hsplit : splitTagRule rule with
      | none =>
        exact ⟨"not enough values to unpack (expected 2, got 1)", by simp⟩
      | some kv =>
        obtain ⟨k, v'⟩ := kv
        rw [hsplit] at hbad
        have : k = "" ∨ v' = "" := by
          rcases Bool.or_eq_true_iff.mp hbad with h | h
          · exact Or.inl (eq_of_beq h)
          · exact Or.inr (eq_of_beq h)
        exact ⟨"Malformed tag search: " ++ rule, by simp [this]⟩
    obtain ⟨msg, hmsg⟩ := hfilter
    refine ⟨msg, ?_⟩
    unfold runFilterPhase candidate
    rw [hmsg]

/-- Witness for C5 (amended): age 0 is rejected at startup; the malformed
rule `"Name:"` raises a `ValueError` at the first filtered volume. -/
theorem C5_witness :
    (∃ msg, startupParse 0 [] false = .error (.argumentTypeError msg)) ∧
    (∃ msg, runFilterPhase (fun _ _ => true) argsBadRule 0 (fun _ => []) [volA] =
      .error (.valueError msg)) :=
  ⟨C5_amended_config_errors.1 0 [] false (by decide),
   C5_amended_config_errors.2.2 (fun _ _ => true) argsBadRule 0 (fun _ => [])
     "Name:" [] volA [] rfl (by decide)⟩

theorem countRecords_append (x : String) (l1 l2 : List RemovalRecord) :
    countRecords x (l1 ++ l2) = countRecords x l1 + countRecords x l2 := by
  simp [countRecords, List.filter_append]

theorem countRecords_remove_volume (d : Except PyError Unit) (t : String)
    (v : Volume) (lg : List RemovalRecord) (x : String) :
    countRecords x (remove_volume d t v lg).1 ≤
      countRecords x lg + (if v.volume_id = x then 1 else 0) := by
  cases d with
  | error e => simp [remove_volume]
  | ok u =>
    have hrec : (remove_volume (.ok u) t v lg).1 = lg ++
        [RemovalRecord.mk v.volume_id v.volume_type v.size
          (toString v.create_time) t] := rfl
    rw [hrec, countRecords_append]
    have hone : countRecords x [RemovalRecord.mk v.volume_id v.volume_type v.size
        (toString v.create_time) t] = if v.volume_id = x then 1 else 0 := by
      by_cases h : v.volume_id = x <;> simp [countRecords, List.filter, h]
    omega

theorem runDeletionPhase_count (d : Volume → Except PyError Unit)
    (t : Volume → String) (x : String) :
    ∀ (vs : List Volume) (lg : List RemovalRecord),
      countRecords x (runDeletionPhase d t vs lg) ≤
        countRecords x lg + (vs.filter (fun v => v.volume_id = x)).length := by
  intro vs
  induction vs with
  | nil => intro lg; simp [runDeletionPhase]
  | cons v rest ih =>
    intro lg
    have h1 := ih (remove_volume (d v) (t v) v lg).1
    have h2 := countRecords_remove_volume (d v) (t v) v lg x
    have h3 : ((v :: rest).filter (fun v => v.volume_id = x)).length =
        (if v.volume_id = x then 1 else 0) +
          (rest.filter (fun v => v.volume_id = x)).length := by
      by_cases h : v.volume_id = x
      · simp [List.filter_cons, h]
        omega
      · simp [List.filter_cons, h]
    have h0 : runDeletionPhase d t (v :: rest) lg =
        runDeletionPhase d t rest (remove_volume (d v) (t v) v lg).1 := rfl
    rw [h0, h3]
    omega

theorem filter_length_eq_count_map (x : String) (vs : List Volume) :
    (vs.filter (fun v => v.volume_id = x)).length =
      (vs.map Volume.volume_id).count x := by
  induction vs with
  | nil => simp
  | cons v rest ih =>
    by_cases h : v.volume_id = x <;>
      simp [List.filter_cons, List.count_cons, h, ih]

/-- C9: a removal record is appended only after the delete call succeeds: a
failing delete leaves the log unchanged and surfaces the error, a
successful delete appends exactly the volume's record; and a deletion
phase run on the fresh per-run log leaves at most one record per volume id
when the candidate list has pairwise distinct volume ids. -/
theorem C9_removal_log_once
    (d : Volume → Except PyError Unit) (t : Volume → String)
    (e : PyError) (tm : String) (v : Volume) (lg : List RemovalRecord)
    (vs : List Volume) (x : String)
    (hnodup : (vs.map Volume.volume_id).Nodup) :
    remove_volume (.error e) tm v lg = (lg, some e) ∧
    remove_volume (.ok ()) tm v lg =
      (lg ++ [{ volume_id := v.volume_id, volume_type := v.volume_type,
                size := v.size, create_time := toString v.create_time,
                removal_time := tm }], none) ∧
    countRecords x (runDeletionPhase d t vs []) ≤ 1 := by
  refine ⟨rfl, rfl, ?_⟩
  have h := runDeletionPhase_count d t x vs []
  have hcount : (vs.map Volume.volume_id).count x ≤ 1 :=
    List.nodup_iff_count_le_one.mp hnodup x
  have hfilter := filter_length_eq_count_map x vs
  have hzero : countRecords x ([] : List RemovalRecord) = 0 := rfl
  omega

/-- Witness for C9: two distinct candidates, the first delete succeeds and
the second fails. -/
theorem C9_witness :
    remove_volume (.error (.clientError "RequestLimitExceeded")) "2026-10-12" volA [] =
      ([], some (.clientError "RequestLimitExceeded")) ∧
    remove_volume (.ok ()) "2026-10-12" volA [] =
      ([{ volume_id := "vol-0a", volume_type := "gp2", size := 8,
          create_time := "0", removal_time := "2026-10-12" }], none) ∧
    countRecords "vol-0a"
      (runDeletionPhase
        (fun v => if v.volume_id = "vol-0a" then .ok () else
          .error (.clientError "RequestLimitExceeded"))
        (fun _ => "2026-10-12") [volA, volB] []) ≤ 1 :=
  C9_removal_log_once
    (fun v => if v.volume_id = "vol-0a" then .ok () else
      .error (.clientError "RequestLimitExceeded"))
    (fun _ => "2026-10-12") (.clientError "RequestLimitExceeded") "2026-10-12"
    volA [] [volA, volB] "vol-0a" (by decide)

theorem tag_filter_loop_fails (regexSearch : String → String → Bool)
    (volume : Volume) (ts : List Tag) (htags : volume.tags = some ts) :
    ∀ (rules : List String),
      (∀ r ∈ rules, malformedRule r = false) →
      (∃ r ∈ rules, ∃ k v, splitTagRule r = some (k, v) ∧
        (lookupTag ts k = none ∨
          ∃ tv, lookupTag ts k = some tv ∧ regexSearch v tv = false)) →
      tag_filter_loop regexSearch volume rules = .ok false := by
  intro rules
  induction rules with
  | nil =>
    rintro - ⟨r, hr, -⟩
    exact absurd hr (List.not_mem_nil r)
  | cons rule rest ih =>
    rintro hwf ⟨r, hr, k, v, hsplit, hfails⟩
    have hwf0 : malformedRule rule = false := hwf rule (List.mem_cons_self rule rest)
    unfold malformedRule at hwf0
    unfold tag_filter_loop
    split
    next heq =>
      rw [heq] at hwf0
      simp at hwf0
    next k0 v0 heq =>
      rw [heq] at hwf0
      have hk0 : ¬(k0 = "" ∨ v0 = "") := by
        rintro (h | h) <;> simp [h] at hwf0
      rw [if_neg hk0]
      split
      next heq2 =>
        rw [htags] at heq2
        exact absurd heq2 (by simp)
      next ts' heq2 =>
        rw [htags] at heq2
        injection heq2 with hts
        subst hts
        split
        next hlook => rfl
        next tv hlook =>
          split
          next hmatch =>
            rcases List.mem_cons.mp hr with rfl | hrest
            · rw [heq] at hsplit
              injection hsplit with hpair
              injection hpair with hk hv
              subst hk
              subst hv
              rcases hfails with hnone | ⟨tv', hlook', hfalse⟩
              · rw [hlook] at hnone
                exact absurd hnone (by simp)
              · rw [hlook] at hlook'
                injection hlook' with htv
                subst htv
                rw [hmatch] at hfalse
                exact absurd hfalse (by simp)
            · exact ih (fun r' hr' => hwf r' (List.mem_cons_of_mem rule hr'))
                ⟨r, hrest, k, v, hsplit, hfails⟩
          next hmatch => rfl

/-- C3 counterexample: with the single well-formed rule
`Name:^integration-test` and an entirely untagged volume — which certainly
lacks a tag with the rule's key — the eligibility filter raises a
`TypeError` instead of returning the non-candidate verdict. -/
theorem C3_counterexample :
    candidate (fun _ _ => true) argsOneRule 0 [] volNoTags = .error .typeError ∧
    candidate (fun _ _ => true) argsOneRule 0 [] volNoTags ≠ .ok none := by
  constructor
  · rfl
  · intro h
    have h' : (Except.error PyError.typeError : Except PyError (Option Volume)) =
        .ok none := h
    exact Except.noConfusion h'

/-- C3 (amended): for every non-empty set of tag rules that are all
well-formed and every volume carrying a tags list, if any single rule
fails (the volume lacks a tag with the rule's key, or the tag's value does
not match the rule's regex), the eligibility filter returns non-candidate,
regardless of the metric series, the clock, the age threshold, and
the ignore-metrics configuration. -/
theorem C3_amended_tag_rule_veto
    (regexSearch : String → String → Bool) (args : Args) (now : Int)
    (datapoints : List Datapoint) (volume : Volume) (ts : List Tag)
    (htags : volume.tags = some ts)
    (hwf : ∀ r ∈ args.tags, malformedRule r = false)
    (hfail : ∃ r ∈ args.tags, ∃ k v, splitTagRule r = some (k, v) ∧
      (lookupTag ts k = none ∨
        ∃ tv, lookupTag ts k = some tv ∧ regexSearch v tv = false)) :
    candidate regexSearch args now datapoints volume = .ok none := by
  have hne : args.tags ≠ [] := by
    rintro hnil
    obtain ⟨r, hr, -⟩ := hfail
    rw [hnil] at hr
    exact absurd hr (List.not_mem_nil r)
  have hloop : tag_filter_loop regexSearch volume args.tags = .ok false :=
    tag_filter_loop_fails regexSearch volume ts htags args.tags hwf hfail
  unfold candidate tag_filter
  rw [if_neg hne, hloop]

/-- Witness for C3 (amended): the rule `Name:^integration-test` with a
regex matcher rejecting `prod-db` vetoes `volB` even with
ignore-metrics on. -/
theorem C3_witness :
    candidate (fun _ _ => false)
      { age := 14, tags := ["Name:^integration-test"], ignore_metrics := true }
      0 [] volB = .ok none :=
  C3_amended_tag_rule_veto (fun _ _ => false)
    { age := 14, tags := ["Name:^integration-test"], ignore_metrics := true }
    0 [] volB [{ key := "Name", value := "prod-db" }] rfl
    (by decide)
    ⟨"Name:^integration-test", by decide, "Name", "^integration-test", by decide,
      Or.inr ⟨"prod-db", by decide, rfl⟩⟩

theorem retryCall_succeeds {α : Type} (p : PyError → Bool)
    (call : Nat → Except PyError α) (v : α)
    (hp : p (.clientError "RequestLimitExceeded") = true) :
    ∀ (N i remaining : Nat), N + 1 ≤ remaining →
      (∀ j, i ≤ j → j < i + N →
        call j = .error (.clientError "RequestLimitExceeded")) →
      call (i + N) = .ok v →
      retryCall p call remaining i = .ok v := by
  intro N
  induction N with
  | zero =>
    intro i remaining hrem hfail hsucc
    obtain ⟨n, rfl⟩ : ∃ n, remaining = n + 1 := ⟨remaining - 1, by omega⟩
    unfold retryCall
    rw [show i + 0 = i from rfl] at hsucc
    rw [hsucc]
  | succ N ih =>
    intro i remaining hrem hfail hsucc
    obtain ⟨n, rfl⟩ : ∃ n, remaining = n + 1 := ⟨remaining - 1, by omega⟩
    obtain ⟨m, rfl⟩ : ∃ m, n = m + 1 := ⟨n - 1, by omega⟩
    have hci : call i = .error (.clientError "RequestLimitExceeded") :=
      hfail i le_rfl (by omega)
    unfold retryCall
    rw [hci]
    simp only [hp, if_true]
    exact ih (i + 1) (m + 1) (by omega)
      (fun j hj1 hj2 => hfail j (by omega) (by omega))
      (by rw [show i + 1 + N = i + (N + 1) by omega]; exact hsucc)

theorem retryCall_no_retry {α : Type} (p : PyError → Bool)
    (call : Nat → Except PyError α) (e : PyError) (remaining i : Nat)
    (hrem : 1 ≤ remaining) (hp : p e = false) (hcall : call i = .error e) :
    retryCall p call remaining i = .error e := by
  obtain ⟨n, rfl⟩ : ∃ n, remaining = n + 1 := ⟨remaining - 1, by omega⟩
  unfold retryCall
  rw [hcall]
  simp [hp]

/-- C6: under the retry wrapper configured with
`retry_on_request_limit_exceeded`, a call whose first `N` attempts fail
with the `RequestLimitExceeded` client error (`N + 1 ≤` the maximum attempt
count) and whose attempt `N + 1` succeeds returns the success result; a
call whose first attempt fails with any other error (permission errors
included) returns that error at once, whatever the later attempts would
have produced. -/
theorem C6_retry_semantics {α : Type} (maxAttempts : Nat) :
    (∀ (call : Nat → Except PyError α) (v : α) (N : Nat),
      N + 1 ≤ maxAttempts →
      (∀ i, 1 ≤ i → i ≤ N → call i = .error (.clientError "RequestLimitExceeded")) →
      call (N + 1) = .ok v →
      retryCall retry_on_request_limit_exceeded call maxAttempts 1 = .ok v) ∧
    (∀ (call : Nat → Except PyError α) (e : PyError),
      1 ≤ maxAttempts →
      retry_on_request_limit_exceeded e = false →
      call 1 = .error e →
      retryCall retry_on_request_limit_exceeded call maxAttempts 1 = .error e) := by
  constructor
  · intro call v N hN hfail hsucc
    exact retryCall_succeeds retry_on_request_limit_exceeded call v rfl N 1
      maxAttempts hN (fun j hj1 hj2 => hfail j hj1 (by omega))
      (by rw [show 1 + N = N + 1 from Nat.add_comm 1 N]; exact hsucc)
  · intro call e hmax hp hcall
    exact retryCall_no_retry retry_on_request_limit_exceeded call e maxAttempts 1
      hmax hp hcall

/-- Witness for C6 with the deletion policy's 100 attempts: two
rate-limited attempts then success yields the success value; an
`UnauthorizedOperation` on the first attempt is returned at once. -/
theorem C6_witness :
    retryCall retry_on_request_limit_exceeded callAfterTwo
      remove_volume_retry_policy.stop_max_attempt_number 1 = .ok 42 ∧
    retryCall retry_on_request_limit_exceeded
      (fun _ => (.error (.clientError "UnauthorizedOperation") : Except PyError Nat))
      remove_volume_retry_policy.stop_max_attempt_number 1 =
      .error (.clientError "UnauthorizedOperation") :=
  ⟨(C6_retry_semantics 100).1 callAfterTwo 42 2 (by decide)
      (fun i h1 h2 => by simp [callAfterTwo, h2]) rfl,
   (C6_retry_semantics 100).2
      (fun _ => (.error (.clientError "UnauthorizedOperation") : Except PyError Nat))
      (.clientError "UnauthorizedOperation") (by decide) rfl rfl⟩

theorem regionLoop_skip (runRegion : String → Except PyError (List RemovalRecord)) :
    ∀ (regions : List String),
      (∀ r ∈ regions, (∃ lg, runRegion r = .ok lg) ∨
        runRegion r = .error (.clientError "UnauthorizedOperation")) →
      regionLoop runRegion regions =
        (regions.filterMap (fun r =>
          match runRegion r with
          | .ok lg => some (r, lg)
          | .error _ => none), none) := by
  intro regions
  induction regions with
  | nil => intro h; rfl
  | cons r rest ih =>
    intro h
    have hrest := ih (fun r' hr' => h r' (List.mem_cons_of_mem r hr'))
    rcases h r (List.mem_cons_self r rest) with ⟨lg, hok⟩ | hunauth
    · simp [regionLoop, hok, hrest, List.filterMap_cons]
    · simp [regionLoop, hunauth, hrest, List.filterMap_cons]

theorem accountLoop_ok
    (runRegion : String → String → Except PyError (List RemovalRecord))
    (regions : List String) :
    ∀ (accounts : List String),
      (∀ a ∈ accounts, (regionLoop (runRegion a) regions).2 = none ∨
        (regionLoop (runRegion a) regions).2 = some (.clientError "AccessDenied")) →
      accountLoop runRegion regions accounts =
        .ok (accounts.map (fun a => (a, (regionLoop (runRegion a) regions).1))) := by
  intro accounts
  induction accounts with
  | nil => intro h; rfl
  | cons a rest ih =>
    intro h
    have hrest := ih (fun a' ha' => h a' (List.mem_cons_of_mem a ha'))
    rcases h a (List.mem_cons_self a rest) with hnone | hdenied
    · simp [accountLoop, hnone, hrest]
    · simp [accountLoop, hdenied, hrest]

theorem accountLoop_abort
    (runRegion : String → String → Except PyError (List RemovalRecord))
    (regions : List String) (e : PyError)
    (he : ∀ code, e = .clientError code → code ≠ "AccessDenied") :
    ∀ (pre : List String) (a : String) (rest : List String),
      (∀ a' ∈ pre, (regionLoop (runRegion a') regions).2 = none ∨
        (regionLoop (runRegion a') regions).2 = some (.clientError "AccessDenied")) →
      (regionLoop (runRegion a) regions).2 = some e →
      accountLoop runRegion regions (pre ++ a :: rest) = .error e := by
  intro pre
  induction pre with
  | nil =>
    intro a rest hpre ha
    rw [List.nil_append]
    cases e with
    | clientError code => simp [accountLoop, ha, he code rfl]
    | valueError msg => simp [accountLoop, ha]
    | argumentTypeError msg => simp [accountLoop, ha]
    | typeError => simp [accountLoop, ha]
  | cons p pre' ih =>
    intro a rest hpre ha
    have hih := ih a rest (fun a' ha' => hpre a' (List.mem_cons_of_mem p ha')) ha
    rcases hpre p (List.mem_cons_self p pre') with hnone | hdenied
    · simp [accountLoop, hnone, hih]
    · simp [accountLoop, hdenied, hih]

/-- C7: in the account-by-region loop, (1) regions failing with the
region-scoped `UnauthorizedOperation` client error are skipped and the
remaining regions of the account still run (the loop completes without an
error, reporting exactly the successful regions); (2) an account whose
region loop escapes with the account-scoped `AccessDenied` client error is
abandoned while sibling accounts continue (the whole loop completes and
every account appears in the report); (3) any other escaping error aborts
the entire loop with that error. -/
theorem C7_orchestrator_error_scopes :
    (∀ (runRegion : String → Except PyError (List RemovalRecord))
        (regions : List String),
      (∀ r ∈ regions, (∃ lg, runRegion r = .ok lg) ∨
        runRegion r = .error (.clientError "UnauthorizedOperation")) →
      regionLoop runRegion regions =
        (regions.filterMap (fun r =>
          match runRegion r with
          | .ok lg => some (r, lg)
          | .error _ => none), none)) ∧
    (∀ (runRegion : String → String → Except PyError (List RemovalRecord))
        (regions accounts : List String),
      (∀ a ∈ accounts, (regionLoop (runRegion a) regions).2 = none ∨
        (regionLoop (runRegion a) regions).2 = some (.clientError "AccessDenied")) →
      accountLoop runRegion regions accounts =
        .ok (accounts.map (fun a => (a, (regionLoop (runRegion a) regions).1)))) ∧
    (∀ (runRegion : String → String → Except PyError (List RemovalRecord))
        (regions : List String) (e : PyError) (pre : List String) (a : String)
        (rest : List String),
      (∀ code, e = .clientError code → code ≠ "AccessDenied") →
      (∀ a' ∈ pre, (regionLoop (runRegion a') regions).2 = none ∨
        (regionLoop (runRegion a') regions).2 = some (.clientError "AccessDenied")) →
      (regionLoop (runRegion a) regions).2 = some e →
      accountLoop runRegion regions (pre ++ a :: rest) = .error e) :=
  ⟨fun runRegion regions h => regionLoop_skip runRegion regions h,
   fun runRegion regions accounts h => accountLoop_ok runRegion regions accounts h,
   fun runRegion regions e pre a rest he hpre ha =>
     accountLoop_abort runRegion regions e he pre a rest hpre ha⟩

/-- Witness for C7 on a concrete two-account, two-region layout: `acct1`
loses only region `r2`, `acct2` is denied at account scope, and a
`Throttling` error aborts the loop. -/
theorem C7_witness :
    regionLoop (runRegion0 "acct1") ["r1", "r2"] = ([("r1", [])], none) ∧
    accountLoop runRegion0 ["r1", "r2"] ["acct1", "acct2"] =
      .ok [("acct1", [("r1", [])]), ("acct2", [])] ∧
    accountLoop runRegionFatal ["r1"] ["acct3"] =
      .error (.clientError "Throttling") := by
  refine ⟨C7_orchestrator_error_scopes.1 (runRegion0 "acct1") ["r1", "r2"] ?_,
    C7_orchestrator_error_scopes.2.1 runRegion0 ["r1", "r2"] ["acct1", "acct2"] ?_,
    C7_orchestrator_error_scopes.2.2 runRegionFatal ["r1"]
      (.clientError "Throttling") [] "acct3" [] ?_ ?_ rfl⟩
  · intro r hr
    rcases List.mem_cons.mp hr with rfl | hr
    · exact Or.inl ⟨[], rfl⟩
    · rcases List.mem_cons.mp hr with rfl | hr
      · exact Or.inr rfl
      · exact absurd hr (List.not_mem_nil r)
  · intro a ha
    rcases List.mem_cons.mp ha with rfl | ha
    · exact Or.inl rfl
    · rcases List.mem_cons.mp ha with rfl | ha
      · exact Or.inr rfl
      · exact absurd ha (List.not_mem_nil a)
  · intro code hc
    injection hc with h
    subst h
    decide
  · intro a' ha'
    exact absurd ha' (List.not_mem_nil a')

end VolClean
